import Mathlib

/-
  Verification development for the `finkles` swarm coordinator
  (src/main.go).  The Go program is shallowly embedded: strings are
  lists of characters, the effectful parts of `ScriptConfig.Start`
  (process launches, the bootstrap node's stderr stream, the optional
  `cargo install` step) are parameterised by an explicit environment,
  and a Go slice-index panic is modelled with `Except`.
-/

/-- Go strings, embedded as lists of characters. -/
abbrev Str := List Char

/-- Does `s` start with `pat`?  Mirrors the prefix test used by
    `strings.Split` / `strings.Contains` when scanning left to right. -/
def startsWithL : Str → Str → Bool
  | _, [] => true
  | [], _ :: _ => false
  | a :: as, b :: bs => a == b && startsWithL as bs

/-- Embedding of Go `strings.Contains(s, sub)`: true when `sub` occurs
    in `s` (always true for the empty pattern). -/
def containsSub : Str → Str → Bool
  | [], sub => sub.isEmpty
  | a :: as, sub => startsWithL (a :: as) sub || containsSub as sub

/-- Worker for `goSplit`.  Scans `s` left to right; `skip` counts the
    characters still belonging to a separator occurrence that has just
    been matched (they are consumed without contributing to any
    segment), exactly the non-overlapping left-to-right scan of Go's
    `strings.Split`. -/
def goSplitAux (sep : Str) : Str → Nat → List Str
  | [], _ => [[]]
  | _ :: cs, Nat.succ skip => goSplitAux sep cs skip
  | c :: cs, 0 =>
    if startsWithL (c :: cs) sep then
      [] :: goSplitAux sep cs (sep.length - 1)
    else
      match goSplitAux sep cs 0 with
      | [] => [[c]]
      | seg :: segs => (c :: seg) :: segs

/-- Embedding of Go `strings.Split(s, sep)` for the non-empty
    separators used by the program (the program never splits on an
    empty separator, so that Go special case is irrelevant here). -/
def goSplit (s sep : Str) : List Str :=
  if sep.isEmpty then [s] else goSplitAux sep s 0

/-- `"peer ID"`, the substring gating the peer-identifier rule
    (src/main.go line 115). -/
def peerIDMark : Str := "peer ID".toList

/-- `"peer ID: "`, the separator used to cut out the peer identifier
    (src/main.go line 116). -/
def peerIDSep : Str := "peer ID: ".toList

/-- `"Assigned to new address"`, the substring gating the address rule
    (src/main.go line 122). -/
def addrMark : Str := "Assigned to new address".toList

/-- `"Assigned to new address; listening on "`, the separator used to
    cut out the listen address (src/main.go line 123). -/
def addrSep : Str := "Assigned to new address; listening on ".toList

/-- `" now"`, the second separator of the address rule
    (src/main.go line 123). -/
def nowSep : Str := " now".toList

/-- A Go runtime panic; the only one this program can raise is the
    slice index-out-of-range panic from `strings.Split(...)[1]`. -/
inductive GoPanic where
  | indexOutOfRange
deriving DecidableEq

deriving instance DecidableEq for Except

/-- A Go `error` value.  `eof` is `io.EOF`, the value
    `bufio.Reader.ReadLine` returns when the stream ends; every other
    error is an opaque message. -/
inductive GoErr where
  | eof
  | goError (msg : Str)
deriving DecidableEq

/-- Role tag for a launched node process (`smcd -n` bootstrap vs a
    would-be peer). -/
inductive Role where
  | bootstrap
  | peer
deriving DecidableEq

/-- The `Nodes` section of `ScriptConfig` (src/main.go lines 31-35). -/
structure NodesConfig where
  n : Nat
  args : Option (List Str)
  callback : Option Str
deriving DecidableEq

/-- `ScriptConfig` (src/main.go lines 30-38). -/
structure ScriptConfig where
  nodes : Option NodesConfig
  dataDir : Option Str
  steps : Option (List Str)
deriving DecidableEq

/-- `DefaultNumNodes` (src/main.go line 18). -/
def DefaultNumNodes : Nat := 8

/-- The node count `n` resolved at src/main.go lines 49-54: the
    configured `Nodes.N` when a `Nodes` section is present, else the
    default of 8. -/
def resolveN (cfg : ScriptConfig) : Nat :=
  match cfg.nodes with
  | none => DefaultNumNodes
  | some nd => nd.n

/-- Environment of the single bootstrap launch: the outcome of
    `cmd.StderrPipe()` (line 89), of `cmd.Start()` (line 98), the lines
    the stderr stream yields, and the terminal error `ReadLine` returns
    once the lines run out (`GoErr.eof` when the stream simply ends). -/
structure LaunchEnv where
  pipeErr : Option GoErr
  startErr : Option GoErr
  lines : List Str
  term : GoErr
deriving DecidableEq

/-- Environment of one `Start` run.  `installRuns` is the condition at
    src/main.go line 63 (smcd missing, or a rust project directory);
    `installErr` is the outcome of `cargo install` when it runs. -/
structure Env where
  installRuns : Bool
  installErr : Option GoErr
  bootstrap : LaunchEnv
deriving DecidableEq

/-- The error, if any, with which the install step (src/main.go
    lines 60-71) aborts `Start`. -/
def installOutcome (env : Env) : Option GoErr :=
  if env.installRuns then env.installErr else none

/-- The peer-identifier extraction `strings.Split(line, "peer ID: ")[1]`
    (src/main.go line 116); the index panics when the separator does
    not occur in the line. -/
def peerIDExtract (line : Str) : Except GoPanic Str :=
  match (goSplit line peerIDSep).get? 1 with
  | some v => .ok v
  | none => .error .indexOutOfRange

/-- The listen-address extraction
    `strings.Split(strings.Split(line, "Assigned to new address; listening on ")[1], " now")[0]`
    (src/main.go line 123); the inner index panics when the long marker
    does not occur in the line (the outer `[0]` always exists, since a
    split is never empty). -/
def addrExtract (line : Str) : Except GoPanic Str :=
  match (goSplit line addrSep).get? 1 with
  | some seg =>
    match goSplit seg nowSep with
    | v :: _ => .ok v
    | [] => .error .indexOutOfRange
  | none => .error .indexOutOfRange

/-- One iteration of the discovery loop body on a line (src/main.go
    lines 115-124): the peer-identifier rule appends whenever the line
    contains `"peer ID"`; then the address rule appends whenever the
    line contains `"Assigned to new address"` and fewer than two values
    are recorded so far (the length test reads the already-updated
    slice, as in the Go code). -/
def processLine (bn : List Str) (line : Str) : Except GoPanic (List Str) :=
  match
    (if containsSub line peerIDMark then
      match peerIDExtract line with
      | .ok v => Except.ok (bn ++ [v])
      | .error p => Except.error p
    else Except.ok bn : Except GoPanic (List Str)) with
  | .error p => .error p
  | .ok bn1 =>
    if containsSub line addrMark && decide (bn1.length < 2) then
      match addrExtract line with
      | .ok v => .ok (bn1 ++ [v])
      | .error p => .error p
    else .ok bn1

/-- Result of the discovery loop: a Go panic, a `return nil, err` with
    the `ReadLine` error, or breaking out with the accumulated
    `bootstrapNode` slice.  Each result records how many lines were
    consumed from the stream. -/
inductive DiscResult where
  | panicked (consumed : Nat)
  | failed (e : GoErr) (consumed : Nat)
  | done (facts : List Str) (consumed : Nat)
deriving DecidableEq

/-- The discovery loop at src/main.go lines 102-131: read a line
    (failing with the stream's terminal error when none is left),
    process it, and break as soon as `len(bootstrapNode) >= 2`. -/
def discoverLoop : List Str → GoErr → List Str → Nat → DiscResult
  | [], term, _, k => .failed term k
  | line :: rest, term, bn, k =>
    match processLine bn line with
    | .error _ => .panicked (k + 1)
    | .ok bn1 =>
      if 2 ≤ bn1.length then .done bn1 (k + 1)
      else discoverLoop rest term bn1 (k + 1)

/-- Observable outcome of one `Start` run: whether it panicked, the
    returned `*State` (`none` models the literal `return nil, err`;
    `some ws` models `return &state, nil` with `ws` the `Workers`
    slice), the returned error, the node processes actually started (in
    order), and the stderr lines consumed. -/
structure RunResult where
  panicked : Bool
  state : Option (List Role)
  error : Option GoErr
  launches : List Role
  linesConsumed : Nat
deriving DecidableEq

/-- The spawn loop at src/main.go lines 79-140, by remaining iteration
    count.  The body runs the bootstrap block only while `bootstrapNode`
    is still nil (empty); the peer-launch part of the body (lines
    135-139) is commented out in the source, so iterations with a
    non-empty `bootstrapNode` do nothing and `state.Workers` is never
    appended to. -/
def spawnLoop (env : Env) : Nat → List Str → RunResult
  | 0, _ => ⟨false, some [], none, [], 0⟩
  | Nat.succ i, bn =>
    if bn.isEmpty then
      match env.bootstrap.pipeErr with
      | some e => ⟨false, none, some e, [], 0⟩
      | none =>
        match env.bootstrap.startErr with
        | some e => ⟨false, none, some e, [], 0⟩
        | none =>
          match discoverLoop env.bootstrap.lines env.bootstrap.term [] 0 with
          | .panicked k => ⟨true, none, none, [Role.bootstrap], k⟩
          | .failed e k => ⟨false, none, some e, [Role.bootstrap], k⟩
          | .done facts k =>
            let rest := spawnLoop env i facts
            ⟨rest.panicked, rest.state, rest.error,
              Role.bootstrap :: rest.launches, k + rest.linesConsumed⟩
    else spawnLoop env i bn

/-- `ScriptConfig.Start` (src/main.go lines 46-144): resolve `n`, run
    the install step, then the spawn loop; on success return the state
    (whose `Workers` slice the code never fills). -/
def runStart (cfg : ScriptConfig) (env : Env) : RunResult :=
  match installOutcome env with
  | some e => ⟨false, none, some e, [], 0⟩
  | none => spawnLoop env (resolveN cfg) []

/-- Modelled from the spec's words, for comparison with the code's
    `peerIDExtract`: "the peer identifier is the text following the
    first occurrence of `peer ID: ` to end of line" (none when the
    separator does not occur). -/
def specPeerIDToEOL (line : Str) : Option Str :=
  match goSplit line peerIDSep with
  | _ :: t :: ts => some (List.intercalate peerIDSep (t :: ts))
  | _ => none

/-- Modelled from the spec's words, for comparison with the code's
    `addrExtract`: "the listen address is the text between
    `Assigned to new address; listening on ` and the next occurrence of
    ` now`" (none when the marker, or a subsequent ` now`, does not
    occur). -/
def specAddrBetween (line : Str) : Option Str :=
  match goSplit line addrSep with
  | _ :: t :: ts =>
    match goSplit (List.intercalate addrSep (t :: ts)) nowSep with
    | a :: _ :: _ => some a
    | _ => none
  | _ => none

/-- The spawn loop never yields a partially populated state: every
    outcome either carries no state at all or carries the (empty)
    fully-assembled `Workers` list together with a nil error. -/
theorem spawnLoop_no_partial (env : Env) :
    ∀ (i : Nat) (bn : List Str),
      (spawnLoop env i bn).state = none ∨
        ((spawnLoop env i bn).state = some [] ∧ (spawnLoop env i bn).error = none) := by
  intro i
  induction i with
  | zero => intro bn; exact Or.inr ⟨rfl, rfl⟩
  | succ i ih =>
    intro bn
    cases hbn : bn.isEmpty with
    | true =>
      simp only [spawnLoop, hbn, if_true]
      cases hp : env.bootstrap.pipeErr with
      | some e => exact Or.inl rfl
      | none =>
        cases hs : env.bootstrap.startErr with
        | some e => exact Or.inl rfl
        | none =>
          cases hd : discoverLoop env.bootstrap.lines env.bootstrap.term [] 0 with
          | panicked k => exact Or.inl rfl
          | failed e k => exact Or.inl rfl
          | done facts k => exact ih facts
    | false =>
      simp only [spawnLoop, hbn, if_false]
      exact ih bn

/-- With the install step passing, the bootstrap pipe and launch
    succeeding, and at least one node requested, a discovery failure is
    returned by `Start` exactly as the discovery loop produced it. -/
theorem runStart_failed_of_discovery (cfg : ScriptConfig) (env : Env) (e : GoErr) (k : Nat)
    (hio : installOutcome env = none) (hp : env.bootstrap.pipeErr = none)
    (hs : env.bootstrap.startErr = none) (hn : 1 ≤ resolveN cfg)
    (hd : discoverLoop env.bootstrap.lines env.bootstrap.term [] 0 = .failed e k) :
    runStart cfg env = ⟨false, none, some e, [Role.bootstrap], k⟩ := by
  unfold runStart
  rw [hio]
  cases hn' : resolveN cfg with
  | zero => rw [hn'] at hn; omega
  | succ m => simp [spawnLoop, hp, hs, hd]

/-- Claim C1: for a `ScriptConfig` whose node count resolves to 5,
    `Start` is claimed to launch exactly 5 node processes and return 5
    role-tagged worker handles.  Evaluating the embedded code on such a
    configuration with a well-behaved bootstrap stream shows the run
    launches only the single bootstrap process and returns a state with
    an empty `Workers` list: the peer-launch step (src/main.go lines
    135-139) is commented out and `state.Workers` is never appended
    to. -/
theorem start_n5_launches_only_bootstrap :
    runStart ⟨some ⟨5, none, none⟩, none, none⟩
        ⟨false, none, ⟨none, none,
          ["INFO peer ID: QmAbc123".toList,
           "INFO Assigned to new address; listening on /ip4/127.0.0.1/tcp/4001 now active".toList],
          GoErr.eof⟩⟩
      = ⟨false, some [], none, [Role.bootstrap], 2⟩ := by decide

/-- Claim C2: fact extraction is claimed to be total on lines.  On a
    line containing `peer ID` but not `peer ID: `, and on a line
    containing `Assigned to new address` but not the full marker, the
    code indexes element 1 of a one-element `strings.Split` result and
    raises an index-out-of-range panic, which also aborts the discovery
    loop. -/
theorem extraction_panics_on_partial_markers :
    processLine [] "found a peer ID in the log".toList = .error GoPanic.indexOutOfRange ∧
      processLine [] "Assigned to new address by DHCP".toList = .error GoPanic.indexOutOfRange ∧
      discoverLoop ["found a peer ID in the log".toList] GoErr.eof [] 0 = .panicked 1 := by
  decide

/-- Claim C6: `Start` is atomic with respect to errors: whenever it
    returns a non-nil error the returned state is nil (first conjunct,
    over every configuration and environment), and when launching the
    bootstrap node fails the launch error is returned with no worker
    handles and no process started (second conjunct). -/
theorem start_error_implies_no_state (cfg : ScriptConfig) (env : Env) :
    ((runStart cfg env).error.isSome = true → (runStart cfg env).state = none) ∧
      (∀ e : GoErr, installOutcome env = none → env.bootstrap.pipeErr = none →
        env.bootstrap.startErr = some e → 1 ≤ resolveN cfg →
        runStart cfg env = ⟨false, none, some e, [], 0⟩) := by
  constructor
  · intro h
    unfold runStart at h ⊢
    cases hio : installOutcome env with
    | some e => rfl
    | none =>
      rw [hio] at h
      have h2 : (spawnLoop env (resolveN cfg) []).error.isSome = true := h
      rcases spawnLoop_no_partial env (resolveN cfg) [] with hst | ⟨hst, herr⟩
      · exact hst
      · rw [herr] at h2; simp at h2
  · intro e hio hp hs hn
    unfold runStart
    rw [hio]
    cases hn' : resolveN cfg with
    | zero => rw [hn'] at hn; omega
    | succ m => simp [spawnLoop, hp, hs]

/-- Witness for claim C6 at a concrete input: with three nodes
    requested and `cmd.Start()` failing for the bootstrap node, `Start`
    returns exactly that launch error, a nil state, and an empty launch
    trace. -/
theorem start_error_implies_no_state_witness :
    runStart ⟨some ⟨3, none, none⟩, none, none⟩
        ⟨false, none, ⟨none, some (GoErr.goError "exec format error".toList), [], GoErr.eof⟩⟩
      = ⟨false, none, some (GoErr.goError "exec format error".toList), [], 0⟩ :=
  (start_error_implies_no_state ⟨some ⟨3, none, none⟩, none, none⟩
    ⟨false, none, ⟨none, some (GoErr.goError "exec format error".toList), [], GoErr.eof⟩⟩).2
    (GoErr.goError "exec format error".toList) rfl rfl rfl (by decide)

/-- Claim C9: the node count resolves to the default of 8 when the
    `Nodes` section is absent, and to the configured `N` when it is
    present.  `resolveN` is the count `runStart` spawns with. -/
theorem resolve_n_default_and_override (cfg : ScriptConfig) :
    (cfg.nodes = none → resolveN cfg = 8) ∧
      (∀ nd : NodesConfig, cfg.nodes = some nd → resolveN cfg = nd.n) := by
  constructor
  · intro h; simp [resolveN, h, DefaultNumNodes]
  · intro nd h; simp [resolveN, h]

/-- Witness for claim C9 at concrete inputs: no `Nodes` section gives
    8, a `Nodes` section with `N = 5` gives 5. -/
theorem resolve_n_default_and_override_witness :
    resolveN ⟨none, none, none⟩ = 8 ∧ resolveN ⟨some ⟨5, none, none⟩, none, none⟩ = 5 :=
  ⟨(resolve_n_default_and_override ⟨none, none, none⟩).1 rfl,
   (resolve_n_default_and_override ⟨some ⟨5, none, none⟩, none, none⟩).2 ⟨5, none, none⟩ rfl⟩

/-- Claim C10: with a `Nodes` section present and `N = 0` (and the
    install step not failing), `Start` runs zero loop iterations: no
    node process is launched, no stderr line is consumed, and a non-nil
    state with an empty `Workers` list is returned with a nil error. -/
theorem start_zero_nodes (cfg : ScriptConfig) (env : Env) (nd : NodesConfig)
    (hio : installOutcome env = none) (hnd : cfg.nodes = some nd) (hz : nd.n = 0) :
    runStart cfg env = ⟨false, some [], none, [], 0⟩ := by
  unfold runStart
  rw [hio]
  have hres : resolveN cfg = 0 := by simp [resolveN, hnd, hz]
  rw [hres]
  rfl

/-- Witness for claim C10 at a concrete input: `Nodes` present with
    `N = 0`, install step skipped. -/
theorem start_zero_nodes_witness :
    runStart ⟨some ⟨0, none, none⟩, none, none⟩
        ⟨false, none, ⟨none, none, ["INFO peer ID: QmAbc123".toList], GoErr.eof⟩⟩
      = ⟨false, some [], none, [], 0⟩ :=
  start_zero_nodes ⟨some ⟨0, none, none⟩, none, none⟩
    ⟨false, none, ⟨none, none, ["INFO peer ID: QmAbc123".toList], GoErr.eof⟩⟩
    ⟨0, none, none⟩ rfl rfl rfl

/-- Claim C3 counterexample: discovery is claimed to assign the two
    facts correctly regardless of arrival order.  When the address line
    arrives first, the positional `bootstrapNode` slice records the
    address at index 0 — the slot the code treats as the peer
    identifier (the commented peer-launch line passes
    `bootstrapNode[0]` as `--bootstrap-peer-id`) — and the peer ID at
    index 1, so the two facts are swapped. -/
theorem discovery_addr_first_swaps_facts :
    discoverLoop
        ["INFO Assigned to new address; listening on /ip4/127.0.0.1/tcp/4001 now active".toList,
         "INFO peer ID: QmAbc123".toList] GoErr.eof [] 0
      = .done ["/ip4/127.0.0.1/tcp/4001".toList, "QmAbc123".toList] 2 ∧
      ("/ip4/127.0.0.1/tcp/4001".toList : Str) ≠ "QmAbc123".toList := by
  decide

/-- Claim C3 as amended: for one peer-ID line and one address line,
    discovery completes after consuming exactly the two lines in either
    relative order; the recorded values are positional (arrival order),
    so slot 0 holds the peer identifier only when the peer-ID line
    arrives first, and holds the address when the address line arrives
    first. -/
theorem discovery_two_lines_order_dependent
    (lp la pid addr : Str) (term : GoErr)
    (hp1 : containsSub lp peerIDMark = true)
    (hp2 : containsSub lp addrMark = false)
    (hp3 : peerIDExtract lp = .ok pid)
    (ha1 : containsSub la peerIDMark = false)
    (ha2 : containsSub la addrMark = true)
    (ha3 : addrExtract la = .ok addr) :
    discoverLoop [lp, la] term [] 0 = .done [pid, addr] 2 ∧
      discoverLoop [la, lp] term [] 0 = .done [addr, pid] 2 := by
  constructor
  · simp [discoverLoop, processLine, hp1, hp2, hp3, ha1, ha2, ha3]
  · simp [discoverLoop, processLine, hp1, hp2, hp3, ha1, ha2, ha3]

/-- Witness for the amended claim C3 at the two literal log lines. -/
theorem discovery_two_lines_order_dependent_witness :
    discoverLoop
        ["INFO peer ID: QmAbc123".toList,
         "INFO Assigned to new address; listening on /ip4/127.0.0.1/tcp/4001 now active".toList]
        GoErr.eof [] 0
      = .done ["QmAbc123".toList, "/ip4/127.0.0.1/tcp/4001".toList] 2 ∧
      discoverLoop
        ["INFO Assigned to new address; listening on /ip4/127.0.0.1/tcp/4001 now active".toList,
         "INFO peer ID: QmAbc123".toList]
        GoErr.eof [] 0
      = .done ["/ip4/127.0.0.1/tcp/4001".toList, "QmAbc123".toList] 2 :=
  discovery_two_lines_order_dependent
    "INFO peer ID: QmAbc123".toList
    "INFO Assigned to new address; listening on /ip4/127.0.0.1/tcp/4001 now active".toList
    "QmAbc123".toList "/ip4/127.0.0.1/tcp/4001".toList GoErr.eof
    (by decide) (by decide) (by decide) (by decide) (by decide) (by decide)

/-- Claim C4 counterexample: a later line containing `peer ID` is
    claimed to be ignored once the peer identifier is known.  In the
    code the peer-identifier rule has no such guard: with `AAA` already
    recorded, a second peer-ID line appends `BBB`, and the discovery
    loop then treats `BBB` as the second (address) fact and stops. -/
theorem second_peer_id_line_not_ignored :
    processLine ["AAA".toList] "second peer ID: BBB".toList
        = .ok ["AAA".toList, "BBB".toList] ∧
      discoverLoop ["first peer ID: AAA".toList, "second peer ID: BBB".toList] GoErr.eof [] 0
        = .done ["AAA".toList, "BBB".toList] 2 := by
  decide

/-- Claim C4 as amended: the two rules are guarded asymmetrically.  The
    address rule appends only while fewer than two values are recorded
    (so it is ignored once both slots are full), whereas the
    peer-identifier rule is unguarded: every processed line containing
    `peer ID` appends its extracted value regardless of what is already
    known.  (Once two values are recorded the loop itself stops, so no
    line at all is consumed after that point.) -/
theorem fact_rule_guards (bn : List Str) (line : Str) :
    (containsSub line peerIDMark = false → containsSub line addrMark = true →
      2 ≤ bn.length → processLine bn line = .ok bn) ∧
      (∀ v : Str, containsSub line peerIDMark = true → containsSub line addrMark = false →
        peerIDExtract line = .ok v → processLine bn line = .ok (bn ++ [v])) := by
  constructor
  · intro h1 h2 hlen
    have hnlt : ¬ bn.length < 2 := by omega
    simp [processLine, h1, h2, hnlt]
  · intro v h1 h2 hv
    simp [processLine, h1, h2, hv]

/-- Witness for the amended claim C4 at concrete inputs: a full slice
    ignores an address line, while a peer-ID line appends to a
    one-element slice. -/
theorem fact_rule_guards_witness :
    processLine ["A".toList, "B".toList]
        "INFO Assigned to new address; listening on /x now up".toList
        = .ok ["A".toList, "B".toList] ∧
      processLine ["A".toList] "INFO peer ID: QmZ".toList
        = .ok ["A".toList, "QmZ".toList] :=
  ⟨(fact_rule_guards ["A".toList, "B".toList]
      "INFO Assigned to new address; listening on /x now up".toList).1
      (by decide) (by decide) (by decide),
   (fact_rule_guards ["A".toList] "INFO peer ID: QmZ".toList).2
      "QmZ".toList (by decide) (by decide) (by decide)⟩

/-- Claim C5 counterexample: when the stream ends before both facts are
    known, `Start` is claimed to return a dedicated "stream closed
    before bootstrap ready" error distinct from the underlying stream
    error.  The code returns the `ReadLine` error unchanged: on an
    empty stream the returned error is exactly the reader's own
    `io.EOF` value (`GoErr.eof`), not a dedicated coordinator error. -/
theorem eof_propagated_not_dedicated :
    runStart ⟨some ⟨2, none, none⟩, none, none⟩
        ⟨false, none, ⟨none, none, [], GoErr.eof⟩⟩
      = ⟨false, none, some GoErr.eof, [Role.bootstrap], 0⟩ ∧
      (⟨none, none, [], GoErr.eof⟩ : LaunchEnv).term = GoErr.eof := by
  decide

/-- Claim C5 as amended: whenever discovery fails, `Start` propagates
    the discovery loop's error unchanged, and the error the loop fails
    with at end of input is exactly the stream's terminal error (the
    reader's `io.EOF` when the stream simply ended, the underlying read
    error otherwise); there is no dedicated "stream closed before
    bootstrap ready" error. -/
theorem discovery_failure_propagates_stream_error
    (cfg : ScriptConfig) (env : Env) (e : GoErr) (k : Nat)
    (hio : installOutcome env = none) (hp : env.bootstrap.pipeErr = none)
    (hs : env.bootstrap.startErr = none) (hn : 1 ≤ resolveN cfg)
    (hd : discoverLoop env.bootstrap.lines env.bootstrap.term [] 0 = .failed e k) :
    runStart cfg env = ⟨false, none, some e, [Role.bootstrap], k⟩ ∧
      (∀ (bn : List Str) (j : Nat) (t : GoErr), discoverLoop [] t bn j = .failed t j) :=
  ⟨runStart_failed_of_discovery cfg env e k hio hp hs hn hd,
   fun _ _ _ => rfl⟩

/-- Witness for the amended claim C5 at a concrete input: a stream that
    fails with an I/O read error before any fact is seen makes `Start`
    return exactly that error. -/
theorem discovery_failure_propagates_stream_error_witness :
    runStart ⟨none, none, none⟩
        ⟨false, none, ⟨none, none, [], GoErr.goError "read failed".toList⟩⟩
      = ⟨false, none, some (GoErr.goError "read failed".toList), [Role.bootstrap], 0⟩ ∧
      (∀ (bn : List Str) (j : Nat) (t : GoErr), discoverLoop [] t bn j = .failed t j) :=
  discovery_failure_propagates_stream_error
    ⟨none, none, none⟩
    ⟨false, none, ⟨none, none, [], GoErr.goError "read failed".toList⟩⟩
    (GoErr.goError "read failed".toList) 0
    rfl rfl rfl (by decide) (by decide)

/-- Claim C7 counterexample: the peer identifier is claimed to be the
    text following the first occurrence of `peer ID: ` to the end of
    the line, for every line containing `peer ID`.  On a line in which
    `peer ID: ` occurs twice, the code's `strings.Split(...)[1]`
    returns only the text up to the second occurrence, not the text to
    end of line. -/
theorem peer_id_extract_stops_at_second_marker :
    containsSub "a peer ID: b peer ID: c".toList peerIDMark = true ∧
      peerIDExtract "a peer ID: b peer ID: c".toList = .ok "b ".toList ∧
      specPeerIDToEOL "a peer ID: b peer ID: c".toList = some "b peer ID: c".toList ∧
      ("b ".toList : Str) ≠ "b peer ID: c".toList := by
  decide

/-- Claim C7 as amended: the extracted peer identifier is the second
    segment of the split on `peer ID: ` — the text following the first
    occurrence of `peer ID: ` up to the next occurrence (to end of
    line, matching the spec, exactly when `peer ID: ` occurs once); a
    line containing `peer ID` without `peer ID: ` panics instead
    (claim C2).  For the literal line `INFO peer ID: QmAbc123` the
    extracted identifier is `QmAbc123`. -/
theorem peer_id_extract_characterization (line pre v : Str) :
    ((goSplit line peerIDSep).get? 1 = some v → peerIDExtract line = .ok v) ∧
      (goSplit line peerIDSep = [pre, v] →
        peerIDExtract line = .ok v ∧ specPeerIDToEOL line = some v) ∧
      peerIDExtract "INFO peer ID: QmAbc123".toList = .ok "QmAbc123".toList := by
  refine ⟨?_, ?_, by decide⟩
  · intro h
    unfold peerIDExtract
    rw [h]
  · intro h
    constructor
    · simp [peerIDExtract, h]
    · simp [specPeerIDToEOL, h, List.intercalate]

/-- Witness for the amended claim C7 at the literal log line, where the
    separator occurs exactly once. -/
theorem peer_id_extract_characterization_witness :
    peerIDExtract "INFO peer ID: QmAbc123".toList = .ok "QmAbc123".toList ∧
      specPeerIDToEOL "INFO peer ID: QmAbc123".toList = some "QmAbc123".toList :=
  (peer_id_extract_characterization "INFO peer ID: QmAbc123".toList
    "INFO ".toList "QmAbc123".toList).2.1 (by decide)

/-- Claim C8 counterexample: the listen address is claimed to be
    extracted from every line containing `Assigned to new address`.  On
    a line containing that substring but not the full marker
    `Assigned to new address; listening on `, the code indexes element
    1 of a one-element split and panics, extracting nothing. -/
theorem addr_extract_panics_without_full_marker :
    containsSub "Assigned to new address by DHCP".toList addrMark = true ∧
      addrExtract "Assigned to new address by DHCP".toList
        = .error GoPanic.indexOutOfRange ∧
      processLine [] "Assigned to new address by DHCP".toList
        = .error GoPanic.indexOutOfRange := by
  decide

/-- Claim C8 as amended: for a line on which the full marker
    `Assigned to new address; listening on ` occurs exactly once and
    the text after it contains ` now`, the extracted listen address is
    the text between the marker and the first subsequent ` now`,
    agreeing with the spec's reading; a line containing
    `Assigned to new address` without the full marker panics instead
    (claim C2).  For the literal address line the extracted value is
    `/ip4/127.0.0.1/tcp/4001`. -/
theorem addr_extract_characterization (line pre seg a b : Str) (rest : List Str) :
    (goSplit line addrSep = [pre, seg] → goSplit seg nowSep = a :: b :: rest →
      addrExtract line = .ok a ∧ specAddrBetween line = some a) ∧
      addrExtract
          "INFO Assigned to new address; listening on /ip4/127.0.0.1/tcp/4001 now active".toList
        = .ok "/ip4/127.0.0.1/tcp/4001".toList := by
  refine ⟨?_, by decide⟩
  intro h1 h2
  constructor
  · simp [addrExtract, h1, h2]
  · simp [specAddrBetween, h1, List.intercalate, h2]

/-- Witness for the amended claim C8 at the literal log line. -/
theorem addr_extract_characterization_witness :
    addrExtract
        "INFO Assigned to new address; listening on /ip4/127.0.0.1/tcp/4001 now active".toList
      = .ok "/ip4/127.0.0.1/tcp/4001".toList ∧
      specAddrBetween
        "INFO Assigned to new address; listening on /ip4/127.0.0.1/tcp/4001 now active".toList
      = some "/ip4/127.0.0.1/tcp/4001".toList :=
  (addr_extract_characterization
    "INFO Assigned to new address; listening on /ip4/127.0.0.1/tcp/4001 now active".toList
    "INFO ".toList
    "/ip4/127.0.0.1/tcp/4001 now active".toList
    "/ip4/127.0.0.1/tcp/4001".toList
    " active".toList
    []).1 (by decide) (by decide)
